import Mathlib

/-!
tracert: the hop loop, the two probe functions and address selection.

A shallow embedding of `src/main.go` (chuacw/tracert).  The program is a
single sequential loop around blocking socket calls.  Everything the network,
the clock and the operating system contribute to one probe is an input of the
model (`ProbeEnv`); the Go functions `pingIPv4`, `pingIPv6` and `traceroute`
become pure functions over these inputs.

Integers: `ttl` is a Go `int` (64 bit).  It starts at 1 and grows by one per
probe, so it cannot wrap before 2^63 probes have been sent; it is a `Nat`
here.  Bytes are `Nat` values below 256.
-/

namespace Tracert

/-! ## Data model -/

/-- Go `net.IP`: a byte slice, of length 4 (IPv4) or 16 (IPv6 form). -/
abbrev IP := List Nat

/-- Go interface value `icmp.Type`.  Its dynamic type is `ipv4.ICMPType` or
`ipv6.ICMPType`; comparing two interface values with `==` compares the dynamic
type and the number, which is equality of this inductive type. -/
inductive ICMPType where
  | ipv4 (n : Nat)
  | ipv6 (n : Nat)
  deriving DecidableEq, Repr

/-- Method `Protocol()` of both `ipv4.ICMPType` (1) and `ipv6.ICMPType` (58). -/
def ICMPType.Protocol : ICMPType → Nat
  | .ipv4 _ => 1
  | .ipv6 _ => 58

/-- The type number carried by the interface value. -/
def ICMPType.number : ICMPType → Nat
  | .ipv4 n => n
  | .ipv6 n => n

namespace ipv4
/-- Constant `ipv4.ICMPTypeEchoReply`. -/
def ICMPTypeEchoReply : ICMPType := .ipv4 0
/-- Constant `ipv4.ICMPTypeDestinationUnreachable`. -/
def ICMPTypeDestinationUnreachable : ICMPType := .ipv4 3
/-- Constant `ipv4.ICMPTypeEcho`. -/
def ICMPTypeEcho : ICMPType := .ipv4 8
/-- Constant `ipv4.ICMPTypeTimeExceeded`. -/
def ICMPTypeTimeExceeded : ICMPType := .ipv4 11
end ipv4

namespace ipv6
/-- Constant `ipv6.ICMPTypeDestinationUnreachable`. -/
def ICMPTypeDestinationUnreachable : ICMPType := .ipv6 1
/-- Constant `ipv6.ICMPTypeTimeExceeded`. -/
def ICMPTypeTimeExceeded : ICMPType := .ipv6 3
/-- Constant `ipv6.ICMPTypeEchoRequest`. -/
def ICMPTypeEchoRequest : ICMPType := .ipv6 128
/-- Constant `ipv6.ICMPTypeEchoReply`. -/
def ICMPTypeEchoReply : ICMPType := .ipv6 129
end ipv6

/-- Go interface `icmp.MessageBody`.  `Echo` is `*icmp.Echo`; every other
body kind is kept as its bytes, since `main.go` never looks inside a body. -/
inductive MessageBody where
  | Echo (ID Seq : Nat) (Data : List Nat)
  | RawBody (Data : List Nat)
  deriving DecidableEq, Repr

/-- Go struct `icmp.Message`; the field `Typ` is the Go field `Type` (a reserved
word here).  A nil `Body` is `none`. -/
structure Message where
  Typ : ICMPType
  Code : Nat
  Checksum : Nat
  Body : Option MessageBody
  deriving DecidableEq, Repr

/-- Identifier of an echo body, if the message has one. -/
def Message.echoID (m : Message) : Option Nat :=
  match m.Body with
  | some (.Echo id _ _) => some id
  | _ => none

/-- Sequence number of an echo body, if the message has one. -/
def Message.echoSeq (m : Message) : Option Nat :=
  match m.Body with
  | some (.Echo _ seq _) => some seq
  | _ => none

/-- The payload `[]byte("HELLO-R-U-THERE")`. -/
def helloData : List Nat :=
  [72, 69, 76, 76, 79, 45, 82, 45, 85, 45, 84, 72, 69, 82, 69]

/-- The expression `os.Getpid() & 0xffff` (main.go lines 32 and 67); a process
id is never negative. -/
def echoIdent (pid : Nat) : Nat := pid &&& 0xffff

/-- The message `wm` that `pingIPv4(ttl, ip)` builds (main.go lines 29-35).
The ttl and the address go to the socket, not into the message. -/
def wmIPv4 (pid : Nat) (_ttl : Nat) (_ip : IP) : Message :=
  { Typ := ipv4.ICMPTypeEcho, Code := 0, Checksum := 0,
    Body := some (.Echo (echoIdent pid) 1 helloData) }

/-- The message `wm` that `pingIPv6(ttl, ip)` builds (main.go lines 64-70). -/
def wmIPv6 (pid : Nat) (_ttl : Nat) (_ip : IP) : Message :=
  { Typ := ipv6.ICMPTypeEchoRequest, Code := 0, Checksum := 0,
    Body := some (.Echo (echoIdent pid) 1 helloData) }

/-! ## Echo message codec -/

/-- Modelled from the spec: the Internet checksum that the Echo Message Codec
places in the checksum field (function `checksum` of golang.org/x/net/icmp,
which main.go calls through `Marshal` but which is not part of src/).  This is
the summation loop over 16 bit words, with uint32 wrap-around. -/
def checksumLoop : List Nat → Nat → Nat
  | b0 :: b1 :: rest, s => checksumLoop rest ((s + (b1 * 256 ||| b0)) % 2 ^ 32)
  | [b], s => (s + b) % 2 ^ 32
  | [], s => s

/-- Modelled from the spec: folding of the 32 bit sum into the complemented
16 bit checksum (missing from src/, see `checksumLoop`). -/
def checksum (b : List Nat) : Nat :=
  let s := checksumLoop b 0
  let s := (s / 65536 + s % 65536) % 2 ^ 32
  let s := (s + s / 65536) % 2 ^ 32
  65535 - s % 65536

/-- Modelled from the spec: wire form of a message body (`MessageBody.Marshal`
of golang.org/x/net/icmp, missing from src/).  An echo body is identifier and
sequence number, each as a big-endian 16 bit field, followed by the payload. -/
def MessageBody.Marshal : MessageBody → List Nat
  | .Echo id seq data =>
      [id % 65536 / 256, id % 256, seq % 65536 / 256, seq % 256] ++ data
  | .RawBody data => data

/-- Modelled from the spec: `encodeEchoRequest` of the Echo Message Codec, the
method `(*icmp.Message).Marshal(nil)` of golang.org/x/net/icmp that main.go
calls but src/ does not contain.  Header is type, code and two checksum bytes,
then the body.  With a nil pseudo header an ICMPv6 message is returned with a
zero checksum (the kernel fills it in); an ICMPv4 message gets its checksum. -/
def Marshal (m : Message) : Option (List Nat) :=
  let b := [m.Typ.number % 256, m.Code % 256, 0, 0]
  let b := match m.Body with
    | some body => b ++ body.Marshal
    | none => b
  if m.Typ.Protocol = 58 then some b
  else
    let s := checksum b
    some ((b.set 2 ((b.getD 2 0) ^^^ (s % 256))).set 3 ((b.getD 3 0) ^^^ (s / 256 % 256)))

/-- Modelled from the spec: body decoder for the echo message types
(`parseEcho` of golang.org/x/net/icmp, missing from src/). -/
def parseEcho (b : List Nat) : Option MessageBody :=
  if b.length < 4 then none
  else some (.Echo (b.getD 0 0 * 256 + b.getD 1 0) (b.getD 2 0 * 256 + b.getD 3 0) (b.drop 4))

/-- Modelled from the spec: `decode(bytes, family)` of the Echo Message Codec,
the function `icmp.ParseMessage(proto, b)` of golang.org/x/net/icmp that
main.go calls but src/ does not contain.  Fewer than four bytes, or a protocol
number other than 1 and 58, is malformed (`none`).  Echo request and echo
reply bodies are decoded into identifier and sequence number; the body of any
other message type is kept as bytes. -/
def ParseMessage (proto : Nat) (b : List Nat) : Option Message :=
  if b.length < 4 then none
  else
    let code := b.getD 1 0
    let cksum := b.getD 2 0 * 256 + b.getD 3 0
    let mk (t : ICMPType) : Option Message :=
      if t = ipv4.ICMPTypeEcho ∨ t = ipv4.ICMPTypeEchoReply ∨
          t = ipv6.ICMPTypeEchoRequest ∨ t = ipv6.ICMPTypeEchoReply then
        match parseEcho (b.drop 4) with
        | some body => some { Typ := t, Code := code, Checksum := cksum, Body := some body }
        | none => none
      else some { Typ := t, Code := code, Checksum := cksum, Body := some (.RawBody (b.drop 4)) }
    if proto = 1 then mk (.ipv4 (b.getD 0 0))
    else if proto = 58 then mk (.ipv6 (b.getD 0 0))
    else none

/-! ## One probe -/

/-- What the socket layer and the decoder deliver for one probe.
* `listenErr`: `icmp.ListenPacket` fails.
* `writeErr`: `c.WriteTo` fails.
* `deadline`: `c.ReadFrom` returns a `*net.OpError`; this is what the expiry of
  the 30 ms read deadline produces (every error of the Go net package is a
  `*net.OpError`).
* `malformed src`: a datagram from `src` arrived and `icmp.ParseMessage`
  returned `(nil, err)` with a non-nil error.
* `reply rm src`: a datagram from `src` arrived and `icmp.ParseMessage`
  returned `(rm, nil)`. -/
inductive NetEvent where
  | listenErr
  | writeErr
  | deadline
  | malformed (src : String)
  | reply (rm : Message) (src : String)
  deriving DecidableEq, Repr

/-- Environment of one loop iteration: the network event of the probe and the
value of `time.Since(start)` in nanoseconds. -/
structure ProbeEnv where
  event : NetEvent
  elapsed : Nat
  deriving DecidableEq, Repr

/-- Result of a call of `pingIPv4` or `pingIPv6`: either `log.Fatal` ended the
process inside the call, or the call returned `(rm, fromIP, err)`; `rm = none`
is the nil pointer and `err` tells whether the error is non-nil. -/
inductive PingResult where
  | fatal
  | ret (rm : Option Message) (fromIP : String) (err : Bool)
  deriving DecidableEq, Repr

/-- Function `pingIPv4` (main.go lines 21-52). -/
def pingIPv4 (pid : Nat) (ttl : Nat) (ip : IP) (ev : NetEvent) : PingResult :=
  match ev with
  | .listenErr => .fatal                               -- line 24
  | ev =>
    match Marshal (wmIPv4 pid ttl ip) with
    | none => .fatal                                   -- line 38
    | some _wb =>
      match ev with
      | .listenErr => .fatal
      | .writeErr => .fatal                            -- line 42
      | .deadline => .fatal                            -- line 48: log.Fatal(err)
      | .malformed src => .ret none src true           -- line 51, rm is nil
      | .reply rm src => .ret (some rm) src false      -- line 51

/-- Function `pingIPv6` (main.go lines 54-89). -/
def pingIPv6 (pid : Nat) (ttl : Nat) (ip : IP) (ev : NetEvent) : PingResult :=
  match ev with
  | .listenErr => .fatal                               -- line 57
  | ev =>
    match Marshal (wmIPv6 pid ttl ip) with
    | none => .fatal                                   -- line 73
    | some _wb =>
      match ev with
      | .listenErr => .fatal
      | .writeErr => .fatal                            -- line 77
      | .deadline =>                                   -- lines 83-85
          .ret (some { Typ := ipv6.ICMPTypeTimeExceeded, Code := 0, Checksum := 0,
                       Body := none }) "*" false
      | .malformed src => .ret none src true           -- line 88, rm is nil
      | .reply rm src => .ret (some rm) src false      -- line 88

/-! ## The hop loop -/

/-- The string `sElapsed` of main.go lines 156-161: the fixed text
"Request timed out." or the formatted duration. -/
inductive SElapsed where
  | timedOut
  | duration (ns : Nat)
  deriving DecidableEq, Repr

/-- One line printed by main.go line 162: ttl, responder, elapsed text. -/
structure HopRecord where
  ttl : Nat
  fromIP : String
  sElapsed : SElapsed
  deriving DecidableEq, Repr

/-- How a run stands after the given probe environments are used up.
* `returned`: the loop was left by `break` and `traceroute` returned.
* `exited`: `log.Fatal` or `os.Exit(1)` ended the process.
* `panicked`: nil pointer dereference at `rm.Type` (line 163).
* `probing ttl`: the loop is still running and its next probe uses `ttl`. -/
inductive Ending where
  | returned
  | exited
  | panicked
  | probing (ttl : Nat)
  deriving DecidableEq, Repr

/-- Observable behaviour of the hop loop: the hop lines printed, the ttl values
handed to `funcping` in call order, and how the loop stands. -/
structure Trace where
  output : List HopRecord
  sent : List Nat
  ending : Ending
  deriving DecidableEq, Repr

/-- The `for` loop of `traceroute` (main.go lines 145-168), started with the
given `ttl`, consuming one probe environment per iteration. -/
def hopLoop (funcping : Nat → IP → NetEvent → PingResult) (targetIP : IP) :
    Nat → List ProbeEnv → Trace
  | ttl, [] => { output := [], sent := [], ending := .probing ttl }
  | ttl, e :: rest =>
    match funcping ttl targetIP e.event with               -- line 148
    | .fatal => { output := [], sent := [ttl], ending := .exited }
    | .ret rm fromIP _err =>
      let sElapsed := if fromIP == "*" then SElapsed.timedOut  -- lines 157-161
                      else SElapsed.duration e.elapsed
      let line : HopRecord := { ttl := ttl, fromIP := fromIP, sElapsed := sElapsed }
      match rm with
      | none => { output := [line], sent := [ttl], ending := .panicked }  -- line 163
      | some m =>
        if m.Typ = ipv4.ICMPTypeTimeExceeded ∨ m.Typ = ipv6.ICMPTypeTimeExceeded then
          let t := hopLoop funcping targetIP (ttl + 1) rest    -- lines 164-165
          { output := line :: t.output, sent := ttl :: t.sent, ending := t.ending }
        else { output := [line], sent := [ttl], ending := .returned }      -- line 167

/-! ## Address selection and the whole of traceroute -/

/-- Go standard library `net.IP.To4` (called by main.go, not part of src/): the
4 byte form of an IPv4 address (given as 4 bytes or as a 16 byte IPv4-mapped
address), nil otherwise. -/
def IP.To4 (ip : IP) : Option IP :=
  if ip.length = 4 then some ip
  else if ip.length = 16 ∧ (ip.take 10).all (fun b => b == 0) ∧
      ip.getD 10 0 = 0xff ∧ ip.getD 11 0 = 0xff then some (ip.drop 12)
  else none

/-- Go standard library `net.IP.To16` (called by main.go, not part of src/):
the 16 byte form; a 4 byte address is converted to its IPv4-mapped form, a
16 byte address is returned as is, anything else is nil. -/
def IP.To16 (ip : IP) : Option IP :=
  if ip.length = 4 then some ([0, 0, 0, 0, 0, 0, 0, 0, 0, 0, 0xff, 0xff] ++ ip)
  else if ip.length = 16 then some ip
  else none

/-- A line of standard output of `traceroute`. -/
inductive OutLine where
  | unableToResolve (target : String)            -- line 137
  | resolvedAs (target : String) (ip : IP)       -- line 141
  | hop (r : HopRecord)                          -- line 162
  deriving DecidableEq, Repr

/-- Observable behaviour of `traceroute`. -/
structure Run where
  stdout : List OutLine
  sent : List Nat
  ending : Ending
  deriving DecidableEq, Repr

/-- The hop lines among the output of a run. -/
def Run.hops (r : Run) : List HopRecord :=
  r.stdout.filterMap (fun l => match l with
    | .hop h => some h
    | _ => none)

/-- Address selection of `traceroute` (main.go lines 112-135): the probe
function and the first candidate the family test accepts. -/
def selectTarget (forceIPv4 forceIPv6 : Bool) (pid : Nat) (targetIPs : List IP) :
    Option ((Nat → IP → NetEvent → PingResult) × IP) :=
  if forceIPv6 then
    (targetIPs.findSome? IP.To16).map (fun ip => (pingIPv6 pid, ip))
  else if forceIPv4 then
    (targetIPs.findSome? IP.To4).map (fun ip => (pingIPv4 pid, ip))
  else none

/-- Function `traceroute` (main.go lines 109-169).  `ipString` is Go
`net.IP.String`, `targetIPs` the answer of `net.LookupIP`. -/
def traceroute (forceIPv4 forceIPv6 : Bool) (pid : Nat) (ipString : IP → String)
    (targetAddrOrIP : String) (targetIPs : List IP) (envs : List ProbeEnv) : Run :=
  match selectTarget forceIPv4 forceIPv6 pid targetIPs with
  | none =>                                                  -- lines 136-139
      { stdout := [.unableToResolve targetAddrOrIP], sent := [], ending := .exited }
  | some (funcping, targetIP) =>
      let head := if targetAddrOrIP != ipString targetIP      -- lines 140-142
                  then [OutLine.resolvedAs targetAddrOrIP targetIP] else []
      let t := hopLoop funcping targetIP 1 envs               -- lines 145-168
      { stdout := head ++ t.output.map OutLine.hop, sent := t.sent, ending := t.ending }

/-- Function `parseCmdLine` (main.go lines 171-178) on the two parsed flag
values: forcing IPv6 switches the IPv4 flag off. -/
def parseCmdLine (flag4 flag6 : Bool) : Bool × Bool :=
  if flag6 then (false, flag6) else (flag4, flag6)

/-! ## Conditions named by the specification -/

/-- The condition under which the specification (section 4.3) classifies a
reply as reaching the destination: an Echo Reply that carries the identifier
of the run and whose source is the target.  This follows the words of the
specification and is compared with what the hop loop tests. -/
def specDestinationReply (pid : Nat) (target : String) (m : Message) (src : String) : Prop :=
  (m.Typ = ipv4.ICMPTypeEchoReply ∨ m.Typ = ipv6.ICMPTypeEchoReply) ∧
  m.echoID = some (echoIdent pid) ∧ src = target

/-! ## Basic facts about one probe -/

theorem Marshal_isSome (m : Message) : ∃ wb, Marshal m = some wb := by
  unfold Marshal
  by_cases h : m.Typ.Protocol = 58
  · simp only [h, if_true]
    exact ⟨_, rfl⟩
  · simp only [h, if_false]
    exact ⟨_, rfl⟩

theorem pingIPv4_reply (pid ttl : Nat) (ip : IP) (m : Message) (src : String) :
    pingIPv4 pid ttl ip (.reply m src) = .ret (some m) src false := by
  obtain ⟨wb, h⟩ := Marshal_isSome (wmIPv4 pid ttl ip)
  simp [pingIPv4, h]

theorem pingIPv6_reply (pid ttl : Nat) (ip : IP) (m : Message) (src : String) :
    pingIPv6 pid ttl ip (.reply m src) = .ret (some m) src false := by
  obtain ⟨wb, h⟩ := Marshal_isSome (wmIPv6 pid ttl ip)
  simp [pingIPv6, h]

theorem pingIPv4_malformed (pid ttl : Nat) (ip : IP) (src : String) :
    pingIPv4 pid ttl ip (.malformed src) = .ret none src true := by
  obtain ⟨wb, h⟩ := Marshal_isSome (wmIPv4 pid ttl ip)
  simp [pingIPv4, h]

theorem pingIPv6_malformed (pid ttl : Nat) (ip : IP) (src : String) :
    pingIPv6 pid ttl ip (.malformed src) = .ret none src true := by
  obtain ⟨wb, h⟩ := Marshal_isSome (wmIPv6 pid ttl ip)
  simp [pingIPv6, h]

theorem pingIPv4_deadline (pid ttl : Nat) (ip : IP) :
    pingIPv4 pid ttl ip .deadline = .fatal := by
  obtain ⟨wb, h⟩ := Marshal_isSome (wmIPv4 pid ttl ip)
  simp [pingIPv4, h]

theorem pingIPv6_deadline (pid ttl : Nat) (ip : IP) :
    pingIPv6 pid ttl ip .deadline =
      .ret (some { Typ := ipv6.ICMPTypeTimeExceeded, Code := 0, Checksum := 0,
                   Body := none }) "*" false := by
  obtain ⟨wb, h⟩ := Marshal_isSome (wmIPv6 pid ttl ip)
  simp [pingIPv6, h]

/-! ## Basic facts about the hop loop -/

theorem hopLoop_output_ttl (f : Nat → IP → NetEvent → PingResult) (ip : IP) :
    ∀ (envs : List ProbeEnv) (ttl : Nat),
      (hopLoop f ip ttl envs).output.map HopRecord.ttl
        = List.range' ttl (hopLoop f ip ttl envs).output.length := by
  intro envs
  induction envs with
  | nil => intro ttl; simp [hopLoop]
  | cons e rest ih =>
    intro ttl
    unfold hopLoop
    cases hp : f ttl ip e.event with
    | fatal => simp
    | ret rm fromIP err =>
      cases rm with
      | none => simp [List.range']
      | some m =>
        by_cases hm : m.Typ = ipv4.ICMPTypeTimeExceeded ∨ m.Typ = ipv6.ICMPTypeTimeExceeded
        · simp [hm, List.range', ih (ttl + 1)]
        · simp [hm, List.range']

theorem hopLoop_sent (f : Nat → IP → NetEvent → PingResult) (ip : IP) :
    ∀ (envs : List ProbeEnv) (ttl : Nat),
      (hopLoop f ip ttl envs).sent
        = List.range' ttl (hopLoop f ip ttl envs).sent.length := by
  intro envs
  induction envs with
  | nil => intro ttl; simp [hopLoop]
  | cons e rest ih =>
    intro ttl
    unfold hopLoop
    cases hp : f ttl ip e.event with
    | fatal => simp [List.range']
    | ret rm fromIP err =>
      cases rm with
      | none => simp [List.range']
      | some m =>
        by_cases hm : m.Typ = ipv4.ICMPTypeTimeExceeded ∨ m.Typ = ipv6.ICMPTypeTimeExceeded
        · simp only [hm, if_true, List.length_cons, List.range'_succ, List.cons.injEq, true_and]
          exact ih (ttl + 1)
        · simp [hm, List.range']

theorem hopLoop_output_le_sent (f : Nat → IP → NetEvent → PingResult) (ip : IP) :
    ∀ (envs : List ProbeEnv) (ttl : Nat),
      (hopLoop f ip ttl envs).output.length ≤ (hopLoop f ip ttl envs).sent.length ∧
      (hopLoop f ip ttl envs).sent.length ≤ envs.length := by
  intro envs
  induction envs with
  | nil => intro ttl; simp [hopLoop]
  | cons e rest ih =>
    intro ttl
    unfold hopLoop
    cases hp : f ttl ip e.event with
    | fatal => simp
    | ret rm fromIP err =>
      cases rm with
      | none => simp
      | some m =>
        by_cases hm : m.Typ = ipv4.ICMPTypeTimeExceeded ∨ m.Typ = ipv6.ICMPTypeTimeExceeded
        · simpa [hm] using ih (ttl + 1)
        · simp [hm]

theorem hops_append_map (pre : List OutLine) (hpre : ∀ l ∈ pre, ∀ h, l ≠ OutLine.hop h)
    (out : List HopRecord) (sent : List Nat) (e : Ending) :
    Run.hops { stdout := pre ++ out.map OutLine.hop, sent := sent, ending := e } = out := by
  unfold Run.hops
  simp only [List.filterMap_append]
  have h1 : pre.filterMap (fun l => match l with
      | .hop h => some h
      | _ => none) = [] := by
    rw [List.filterMap_eq_nil_iff]
    intro l hl
    cases l with
    | hop h => exact absurd rfl (hpre _ hl h)
    | unableToResolve _ => rfl
    | resolvedAs _ _ => rfl
  rw [h1, List.nil_append, List.filterMap_map]
  induction out with
  | nil => rfl
  | cons a t ih => simp [List.filterMap_cons, ih]

/-- Relation between `traceroute` and its hop loop once a target is selected. -/
theorem traceroute_resolved (f4 f6 : Bool) (pid : Nat) (ipString : IP → String)
    (target : String) (ips : List IP) (envs : List ProbeEnv)
    (f : Nat → IP → NetEvent → PingResult) (ip : IP)
    (h : selectTarget f4 f6 pid ips = some (f, ip)) :
    (traceroute f4 f6 pid ipString target ips envs).hops = (hopLoop f ip 1 envs).output ∧
    (traceroute f4 f6 pid ipString target ips envs).sent = (hopLoop f ip 1 envs).sent ∧
    (traceroute f4 f6 pid ipString target ips envs).ending = (hopLoop f ip 1 envs).ending := by
  unfold traceroute
  rw [h]
  refine ⟨?_, rfl, rfl⟩
  apply hops_append_map
  intro l hl h'
  split at hl
  · simp at hl; subst hl; simp
  · simp at hl

/-- Without a selected target nothing is probed. -/
theorem traceroute_unresolved (f4 f6 : Bool) (pid : Nat) (ipString : IP → String)
    (target : String) (ips : List IP) (envs : List ProbeEnv)
    (h : selectTarget f4 f6 pid ips = none) :
    traceroute f4 f6 pid ipString target ips envs =
      { stdout := [.unableToResolve target], sent := [], ending := .exited } := by
  unfold traceroute
  rw [h]

/-- A run of replies that keep the loop going, followed by one that ends it:
`n` replies of type `te` (a Time Exceeded type), then a reply of another type
`er`.  Whatever follows in the environment is never used. -/
theorem hopLoop_chain (f : Nat → IP → NetEvent → PingResult) (ip : IP)
    (hf : ∀ ttl m src, f ttl ip (.reply m src) = .ret (some m) src false)
    (te er : ICMPType)
    (hte : te = ipv4.ICMPTypeTimeExceeded ∨ te = ipv6.ICMPTypeTimeExceeded)
    (her : ¬ (er = ipv4.ICMPTypeTimeExceeded ∨ er = ipv6.ICMPTypeTimeExceeded))
    (c k : Nat) (b : Option MessageBody) (T : String) (e : Nat) (rest : List ProbeEnv) :
    ∀ (n t : Nat) (code ck : Nat → Nat) (body : Nat → Option MessageBody)
      (R : Nat → String) (el : Nat → Nat),
      hopLoop f ip t
        ((List.range n).map (fun i =>
            ({ event := .reply ⟨te, code i, ck i, body i⟩ (R i), elapsed := el i } : ProbeEnv))
          ++ { event := .reply ⟨er, c, k, b⟩ T, elapsed := e } :: rest)
      = { output := (List.range n).map (fun i =>
            ({ ttl := t + i, fromIP := R i,
               sElapsed := if R i == "*" then .timedOut else .duration (el i) } : HopRecord))
            ++ [{ ttl := t + n, fromIP := T,
                  sElapsed := if T == "*" then .timedOut else .duration e }],
          sent := List.range' t (n + 1),
          ending := .returned } := by
  intro n
  induction n with
  | zero =>
    intro t code ck body R el
    simp [hopLoop, hf, her, List.range']
  | succ n ih =>
    intro t code ck body R el
    have h := ih (t + 1) (fun i => code (i + 1)) (fun i => ck (i + 1))
      (fun i => body (i + 1)) (fun i => R (i + 1)) (fun i => el (i + 1))
    rw [List.range_succ_eq_map]
    simp only [List.map_cons, List.map_map, List.cons_append]
    unfold hopLoop
    simp only [hf, hte, if_true]
    simp only [Function.comp_def, Nat.succ_eq_add_one]
    rw [h]
    simp only [List.range'_succ, Trace.mk.injEq, List.cons.injEq, and_true, true_and,
      Nat.add_zero, List.append_cancel_right_eq]
    simp only [Nat.add_assoc, Nat.add_comm 1]

/-- Unanswered probes over IPv6: every read deadline yields an unresponsive
record and the loop goes on with the next ttl. -/
theorem hopLoop_IPv6_deadlines (pid : Nat) (ip : IP) :
    ∀ (els : List Nat) (t : Nat),
      hopLoop (pingIPv6 pid) ip t (els.map (fun e => ({ event := .deadline, elapsed := e } : ProbeEnv)))
      = { output := (List.range' t els.length).map (fun i =>
            ({ ttl := i, fromIP := "*", sElapsed := .timedOut } : HopRecord)),
          sent := List.range' t els.length,
          ending := .probing (t + els.length) } := by
  intro els
  induction els with
  | nil => intro t; simp [hopLoop]
  | cons e rest ih =>
    intro t
    simp only [List.map_cons]
    unfold hopLoop
    simp only [pingIPv6_deadline, or_true, if_true, ih (t + 1)]
    simp [List.range'_succ, Nat.add_assoc, Nat.add_comm 1]

/-- Time Exceeded replies keep the loop going, for any probe function that
hands decoded replies through. -/
theorem hopLoop_time_exceeded (f : Nat → IP → NetEvent → PingResult) (ip : IP)
    (hf : ∀ ttl m src, f ttl ip (.reply m src) = .ret (some m) src false)
    (te : ICMPType)
    (hte : te = ipv4.ICMPTypeTimeExceeded ∨ te = ipv6.ICMPTypeTimeExceeded) :
    ∀ (rs : List (String × Nat)) (t : Nat),
      (hopLoop f ip t (rs.map (fun r =>
          ({ event := .reply ⟨te, 0, 0, none⟩ r.1, elapsed := r.2 } : ProbeEnv)))).sent
        = List.range' t rs.length ∧
      (hopLoop f ip t (rs.map (fun r =>
          ({ event := .reply ⟨te, 0, 0, none⟩ r.1, elapsed := r.2 } : ProbeEnv)))).ending
        = .probing (t + rs.length) := by
  intro rs
  induction rs with
  | nil => intro t; simp [hopLoop]
  | cons r rest ih =>
    intro t
    simp only [List.map_cons]
    unfold hopLoop
    simp only [hf, hte, if_true, List.length_cons, List.range'_succ, (ih (t + 1)).1,
      (ih (t + 1)).2, true_and]
    simp [Nat.add_assoc, Nat.add_comm 1]

theorem pingIPv4_listenErr (pid ttl : Nat) (ip : IP) :
    pingIPv4 pid ttl ip .listenErr = .fatal := by
  simp [pingIPv4]

theorem pingIPv4_writeErr (pid ttl : Nat) (ip : IP) :
    pingIPv4 pid ttl ip .writeErr = .fatal := by
  obtain ⟨wb, h⟩ := Marshal_isSome (wmIPv4 pid ttl ip)
  simp [pingIPv4, h]

theorem pingIPv6_listenErr (pid ttl : Nat) (ip : IP) :
    pingIPv6 pid ttl ip .listenErr = .fatal := by
  simp [pingIPv6]

theorem pingIPv6_writeErr (pid ttl : Nat) (ip : IP) :
    pingIPv6 pid ttl ip .writeErr = .fatal := by
  obtain ⟨wb, h⟩ := Marshal_isSome (wmIPv6 pid ttl ip)
  simp [pingIPv6, h]

/-- A loop that has called the probe function at least once cannot have an
empty list of probed ttl values; with none probed it is still at its start. -/
theorem hopLoop_sent_nil (f : Nat → IP → NetEvent → PingResult) (ip : IP) (t : Nat)
    (envs : List ProbeEnv) (h : (hopLoop f ip t envs).sent = []) :
    (hopLoop f ip t envs).ending = .probing t := by
  cases envs with
  | nil => simp [hopLoop]
  | cons e rest =>
    exfalso
    revert h
    unfold hopLoop
    cases f t ip e.event with
    | fatal => simp
    | ret rm fromIP err =>
      cases rm with
      | none => simp
      | some m =>
        by_cases hm : m.Typ = ipv4.ICMPTypeTimeExceeded ∨ m.Typ = ipv6.ICMPTypeTimeExceeded
        · simp [hm]
        · simp [hm]

/-- The decision of one loop iteration, for a probe function given by its
result on this event. -/
theorem hopLoop_ends_here_iff (f : Nat → IP → NetEvent → PingResult) (ip : IP) (ttl : Nat)
    (e : ProbeEnv) (rest : List ProbeEnv) :
    ((hopLoop f ip ttl (e :: rest)).ending = .returned ∧
      (hopLoop f ip ttl (e :: rest)).sent = [ttl]) ↔
    ∃ m src err, f ttl ip e.event = .ret (some m) src err ∧
      m.Typ ≠ ipv4.ICMPTypeTimeExceeded ∧ m.Typ ≠ ipv6.ICMPTypeTimeExceeded := by
  unfold hopLoop
  cases hp : f ttl ip e.event with
  | fatal => simp
  | ret rm fromIP err =>
    cases rm with
    | none => simp
    | some m =>
      by_cases hm : m.Typ = ipv4.ICMPTypeTimeExceeded ∨ m.Typ = ipv6.ICMPTypeTimeExceeded
      · simp only [hm, if_true, List.cons.injEq, true_and, PingResult.ret.injEq,
          Option.some.injEq]
        constructor
        · rintro ⟨h1, h2⟩
          have h3 := hopLoop_sent_nil f ip (ttl + 1) rest h2
          rw [h3] at h1
          exact absurd h1 (by simp)
        · rintro ⟨m', src, err', ⟨rfl, _, _⟩, h4, h6⟩
          rcases hm with hm | hm
          · exact absurd hm h4
          · exact absurd hm h6
      · simp only [hm, if_false, and_self, true_iff]
        push_neg at hm
        exact ⟨m, fromIP, err, rfl, hm.1, hm.2⟩

/-- The first ttl handed to the probe function is the ttl the loop is at. -/
theorem hopLoop_sent_head (f : Nat → IP → NetEvent → PingResult) (ip : IP) (t : Nat)
    (e : ProbeEnv) (rest : List ProbeEnv) :
    (hopLoop f ip t (e :: rest)).sent.head? = some t := by
  unfold hopLoop
  cases f t ip e.event with
  | fatal => simp
  | ret rm fromIP err =>
    cases rm with
    | none => simp
    | some m =>
      by_cases hm : m.Typ = ipv4.ICMPTypeTimeExceeded ∨ m.Typ = ipv6.ICMPTypeTimeExceeded
      · simp [hm]
      · simp [hm]

/-- Among candidates none of which is an IPv4 address the IPv4 test finds
nothing. -/
theorem findSome_To4_filter (ips : List IP) :
    (ips.filter (fun a => a.To4.isNone)).findSome? IP.To4 = none := by
  induction ips with
  | nil => rfl
  | cons a t ih =>
    cases h : a.To4 with
    | none => simp [List.filter_cons, h, List.findSome?_cons, ih]
    | some v => simp [List.filter_cons, h, ih]

/-- The probe function that address selection hands to the loop is one of the
two probe functions of main.go. -/
theorem selectTarget_probe (f4 f6 : Bool) (pid : Nat) (ips : List IP)
    (f : Nat → IP → NetEvent → PingResult) (ip : IP)
    (h : selectTarget f4 f6 pid ips = some (f, ip)) :
    f = pingIPv4 pid ∨ f = pingIPv6 pid := by
  unfold selectTarget at h
  split at h
  · cases hx : ips.findSome? IP.To16 with
    | none => simp [hx] at h
    | some a =>
      simp only [hx, Option.map_some', Option.some.injEq, Prod.mk.injEq] at h
      exact Or.inr h.1.symm
  · split at h
    · cases hx : ips.findSome? IP.To4 with
      | none => simp [hx] at h
      | some a =>
        simp only [hx, Option.map_some', Option.some.injEq, Prod.mk.injEq] at h
        exact Or.inl h.1.symm
    · simp at h

/-! ## Basic facts about the codec -/

theorem echoIdent_lt (pid : Nat) : echoIdent pid < 65536 := by
  unfold echoIdent
  have h : pid &&& 0xffff ≤ 0xffff := Nat.and_le_right
  omega

/-- A 16 bit value is recovered from its two big-endian bytes. -/
theorem uint16_bytes (v : Nat) (h : v < 65536) : v % 65536 / 256 * 256 + v % 256 = v := by
  omega

/-- Wire form of an IPv4 echo request: header with the checksum in bytes 2
and 3, then identifier, sequence number and payload. -/
theorem Marshal_IPv4_Echo (id seq : Nat) (data : List Nat) :
    Marshal ⟨ipv4.ICMPTypeEcho, 0, 0, some (.Echo id seq data)⟩
      = some (8 :: 0 ::
          checksum (8 :: 0 :: 0 :: 0 :: id % 65536 / 256 :: id % 256 ::
            seq % 65536 / 256 :: seq % 256 :: data) % 256 ::
          checksum (8 :: 0 :: 0 :: 0 :: id % 65536 / 256 :: id % 256 ::
            seq % 65536 / 256 :: seq % 256 :: data) / 256 % 256 ::
          id % 65536 / 256 :: id % 256 :: seq % 65536 / 256 :: seq % 256 :: data) := by
  simp [Marshal, MessageBody.Marshal, ICMPType.Protocol, ICMPType.number,
    ipv4.ICMPTypeEcho]

/-- Wire form of an IPv6 echo request: the checksum bytes stay zero. -/
theorem Marshal_IPv6_Echo (id seq : Nat) (data : List Nat) :
    Marshal ⟨ipv6.ICMPTypeEchoRequest, 0, 0, some (.Echo id seq data)⟩
      = some (128 :: 0 :: 0 :: 0 ::
          id % 65536 / 256 :: id % 256 :: seq % 65536 / 256 :: seq % 256 :: data) := by
  simp [Marshal, MessageBody.Marshal, ICMPType.Protocol, ICMPType.number,
    ipv6.ICMPTypeEchoRequest]

/-- Decoding of the bytes of an IPv4 echo request. -/
theorem ParseMessage_IPv4_Echo (c k1 k2 i1 i2 s1 s2 : Nat) (data : List Nat) :
    ParseMessage 1 (8 :: c :: k1 :: k2 :: i1 :: i2 :: s1 :: s2 :: data)
      = some ⟨ipv4.ICMPTypeEcho, c, k1 * 256 + k2,
          some (.Echo (i1 * 256 + i2) (s1 * 256 + s2) data)⟩ := by
  have h : ¬ (data.length + 1 + 1 + 1 + 1 < 4) := by omega
  simp [ParseMessage, parseEcho, ipv4.ICMPTypeEcho, ipv4.ICMPTypeEchoReply,
    ipv6.ICMPTypeEchoRequest, ipv6.ICMPTypeEchoReply, h]

/-- Decoding of the bytes of an IPv6 echo request. -/
theorem ParseMessage_IPv6_Echo (c k1 k2 i1 i2 s1 s2 : Nat) (data : List Nat) :
    ParseMessage 58 (128 :: c :: k1 :: k2 :: i1 :: i2 :: s1 :: s2 :: data)
      = some ⟨ipv6.ICMPTypeEchoRequest, c, k1 * 256 + k2,
          some (.Echo (i1 * 256 + i2) (s1 * 256 + s2) data)⟩ := by
  have h : ¬ (data.length + 1 + 1 + 1 + 1 < 4) := by omega
  simp [ParseMessage, parseEcho, ipv4.ICMPTypeEcho, ipv4.ICMPTypeEchoReply,
    ipv6.ICMPTypeEchoRequest, ipv6.ICMPTypeEchoReply, h]

/-! ## Claims -/

/-- C1: in every run of traceroute, whatever the flags, the lookup answer and
the sequence of probe outcomes, the ttl values passed to the probe function
are 1, 2, ..., m in this order, the ttl values of the hop records printed are
1, 2, ..., n in this order, and n is at most m: no ttl is skipped or repeated
and records appear in strictly increasing ttl order. -/
theorem C1_ttl_contiguous_from_one (forceIPv4 forceIPv6 : Bool) (pid : Nat)
    (ipString : IP → String) (target : String) (ips : List IP) (envs : List ProbeEnv) :
    (traceroute forceIPv4 forceIPv6 pid ipString target ips envs).sent
      = List.range' 1 (traceroute forceIPv4 forceIPv6 pid ipString target ips envs).sent.length ∧
    (traceroute forceIPv4 forceIPv6 pid ipString target ips envs).hops.map HopRecord.ttl
      = List.range' 1
          (traceroute forceIPv4 forceIPv6 pid ipString target ips envs).hops.length ∧
    (traceroute forceIPv4 forceIPv6 pid ipString target ips envs).hops.length
      ≤ (traceroute forceIPv4 forceIPv6 pid ipString target ips envs).sent.length := by
  cases h : selectTarget forceIPv4 forceIPv6 pid ips with
  | none =>
    rw [traceroute_unresolved _ _ _ _ _ _ _ h]
    simp [Run.hops]
  | some p =>
    obtain ⟨f, ip⟩ := p
    obtain ⟨h1, h2, _⟩ := traceroute_resolved forceIPv4 forceIPv6 pid ipString target ips envs f ip h
    rw [h1, h2]
    exact ⟨hopLoop_sent f ip envs 1, hopLoop_output_ttl f ip envs 1,
      (hopLoop_output_le_sent f ip envs 1).1⟩

/-- C2: in a run of traceroute whose target was resolved (either family), for
every n, when the probes at ttl 1..n are answered by Time Exceeded messages
from addresses R 1 .. R n and the probe at ttl n+1 by an Echo Reply from T,
traceroute prints exactly the n+1 hop records (i, R i) for i = 1..n followed
by (n+1, T), has called the probe function exactly for ttl 1..n+1, and has
returned; further probe environments are never used. -/
theorem C2_time_exceeded_then_echo_reply (forceIPv4 forceIPv6 : Bool) (pid : Nat)
    (ipString : IP → String) (target : String) (ips : List IP) (n : Nat)
    (R : Nat → String) (T : String) (te er : ICMPType)
    (code ck el : Nat → Nat) (body : Nat → Option MessageBody)
    (c k e : Nat) (b : Option MessageBody) (rest : List ProbeEnv)
    (hres : (selectTarget forceIPv4 forceIPv6 pid ips).isSome = true)
    (hte : te = ipv4.ICMPTypeTimeExceeded ∨ te = ipv6.ICMPTypeTimeExceeded)
    (her : er = ipv4.ICMPTypeEchoReply ∨ er = ipv6.ICMPTypeEchoReply) :
    (traceroute forceIPv4 forceIPv6 pid ipString target ips
        ((List.range n).map (fun i =>
            ({ event := .reply ⟨te, code i, ck i, body i⟩ (R (i + 1)),
               elapsed := el i } : ProbeEnv))
          ++ { event := .reply ⟨er, c, k, b⟩ T, elapsed := e } :: rest)).hops.map
          (fun r => (r.ttl, r.fromIP))
        = (List.range n).map (fun i => (i + 1, R (i + 1))) ++ [(n + 1, T)] ∧
    (traceroute forceIPv4 forceIPv6 pid ipString target ips
        ((List.range n).map (fun i =>
            ({ event := .reply ⟨te, code i, ck i, body i⟩ (R (i + 1)),
               elapsed := el i } : ProbeEnv))
          ++ { event := .reply ⟨er, c, k, b⟩ T, elapsed := e } :: rest)).sent
        = List.range' 1 (n + 1) ∧
    (traceroute forceIPv4 forceIPv6 pid ipString target ips
        ((List.range n).map (fun i =>
            ({ event := .reply ⟨te, code i, ck i, body i⟩ (R (i + 1)),
               elapsed := el i } : ProbeEnv))
          ++ { event := .reply ⟨er, c, k, b⟩ T, elapsed := e } :: rest)).ending
        = .returned := by
  obtain ⟨⟨f, ip⟩, hsel⟩ := Option.isSome_iff_exists.mp hres
  have hf : ∀ ttl m src, f ttl ip (.reply m src) = .ret (some m) src false := by
    rcases selectTarget_probe forceIPv4 forceIPv6 pid ips f ip hsel with rfl | rfl
    · exact fun ttl m src => pingIPv4_reply pid ttl ip m src
    · exact fun ttl m src => pingIPv6_reply pid ttl ip m src
  have her' : ¬ (er = ipv4.ICMPTypeTimeExceeded ∨ er = ipv6.ICMPTypeTimeExceeded) := by
    rcases her with rfl | rfl <;> decide
  obtain ⟨h1, h2, h3⟩ := traceroute_resolved forceIPv4 forceIPv6 pid ipString target ips
    ((List.range n).map (fun i =>
        ({ event := .reply ⟨te, code i, ck i, body i⟩ (R (i + 1)),
           elapsed := el i } : ProbeEnv))
      ++ { event := .reply ⟨er, c, k, b⟩ T, elapsed := e } :: rest) f ip hsel
  have hc := hopLoop_chain f ip hf te er hte her' c k b T e rest n 1 code ck body
    (fun i => R (i + 1)) el
  rw [h1, h2, h3, hc]
  simp [Function.comp, Nat.add_comm]

/-- Witness of C2 (Scenario B): IPv4 forced, the lookup answers 93.184.216.34,
routers 10.0.0.1 and 10.0.0.2 answer ttl 1 and 2 with Time Exceeded and the
target answers ttl 3 with an Echo Reply; a fourth outcome is at hand and is
never used. -/
theorem C2_time_exceeded_then_echo_reply_witness :
    ((selectTarget true false 1234 [[93, 184, 216, 34]]).isSome = true ∧
      (ipv4.ICMPTypeTimeExceeded = ipv4.ICMPTypeTimeExceeded ∨
        ipv4.ICMPTypeTimeExceeded = ipv6.ICMPTypeTimeExceeded) ∧
      (ipv4.ICMPTypeEchoReply = ipv4.ICMPTypeEchoReply ∨
        ipv4.ICMPTypeEchoReply = ipv6.ICMPTypeEchoReply)) ∧
    ((traceroute true false 1234 (fun _ => "93.184.216.34") "example.com" [[93, 184, 216, 34]]
        ((List.range 2).map (fun i =>
            ({ event := .reply ⟨ipv4.ICMPTypeTimeExceeded, 0, 0, none⟩
                          ((fun j => if j = 1 then "10.0.0.1" else "10.0.0.2") (i + 1)),
               elapsed := 5 } : ProbeEnv))
          ++ { event := .reply ⟨ipv4.ICMPTypeEchoReply, 0, 0, none⟩ "93.184.216.34",
               elapsed := 7 } :: [{ event := .deadline, elapsed := 0 }])).hops.map
          (fun r => (r.ttl, r.fromIP))
        = (List.range 2).map (fun i =>
            (i + 1, (fun j => if j = 1 then "10.0.0.1" else "10.0.0.2") (i + 1)))
          ++ [(2 + 1, "93.184.216.34")] ∧
      (traceroute true false 1234 (fun _ => "93.184.216.34") "example.com" [[93, 184, 216, 34]]
        ((List.range 2).map (fun i =>
            ({ event := .reply ⟨ipv4.ICMPTypeTimeExceeded, 0, 0, none⟩
                          ((fun j => if j = 1 then "10.0.0.1" else "10.0.0.2") (i + 1)),
               elapsed := 5 } : ProbeEnv))
          ++ { event := .reply ⟨ipv4.ICMPTypeEchoReply, 0, 0, none⟩ "93.184.216.34",
               elapsed := 7 } :: [{ event := .deadline, elapsed := 0 }])).sent
        = List.range' 1 (2 + 1) ∧
      (traceroute true false 1234 (fun _ => "93.184.216.34") "example.com" [[93, 184, 216, 34]]
        ((List.range 2).map (fun i =>
            ({ event := .reply ⟨ipv4.ICMPTypeTimeExceeded, 0, 0, none⟩
                          ((fun j => if j = 1 then "10.0.0.1" else "10.0.0.2") (i + 1)),
               elapsed := 5 } : ProbeEnv))
          ++ { event := .reply ⟨ipv4.ICMPTypeEchoReply, 0, 0, none⟩ "93.184.216.34",
               elapsed := 7 } :: [{ event := .deadline, elapsed := 0 }])).ending
        = .returned) :=
  ⟨⟨by simp [selectTarget, IP.To4], Or.inl rfl, Or.inl rfl⟩,
   C2_time_exceeded_then_echo_reply true false 1234 (fun _ => "93.184.216.34") "example.com"
     [[93, 184, 216, 34]] 2 (fun j => if j = 1 then "10.0.0.1" else "10.0.0.2") "93.184.216.34"
     ipv4.ICMPTypeTimeExceeded ipv4.ICMPTypeEchoReply (fun _ => 0) (fun _ => 0) (fun _ => 5)
     (fun _ => none) 0 0 7 none [{ event := .deadline, elapsed := 0 }]
     (by simp [selectTarget, IP.To4]) (Or.inl rfl) (Or.inl rfl)⟩

/-- C3 (claim as stated fails): no maximum TTL bound exists.  Whatever bound is
proposed, some sequence of probe outcomes (over IPv6, one more unanswered
probe than the bound) makes the hop loop send more probes than the bound. -/
theorem C3_no_maxHops_bound :
    ¬ ∃ maxHops : Nat, ∀ (pid : Nat) (ip : IP) (envs : List ProbeEnv),
        (hopLoop (pingIPv6 pid) ip 1 envs).sent.length ≤ maxHops := by
  rintro ⟨maxHops, h⟩
  have h1 := h 0 [] ((List.replicate (maxHops + 1) 0).map
    (fun e => ({ event := .deadline, elapsed := e } : ProbeEnv)))
  rw [hopLoop_IPv6_deadlines] at h1
  simp at h1

/-- C3 (amended): the hop loop has no maximum TTL.  For every n, when the first
n probes over IPv6 all run into the read deadline, the loop has printed the n
records (1, "*", timed out) .. (n, "*", timed out), has probed ttl 1..n, and is
still running with next ttl n+1; and when the first n probes over IPv4 are all
answered by Time Exceeded, the loop has likewise probed ttl 1..n and is still
running with next ttl n+1.  The number of probes never exceeds the number of
probe outcomes supplied. -/
theorem C3_unbounded_hop_loop (pid : Nat) (ip : IP) (els : List Nat)
    (rs : List (String × Nat)) (f : Nat → IP → NetEvent → PingResult) (envs : List ProbeEnv) :
    hopLoop (pingIPv6 pid) ip 1
        (els.map (fun e => ({ event := .deadline, elapsed := e } : ProbeEnv)))
      = { output := (List.range' 1 els.length).map (fun i =>
            ({ ttl := i, fromIP := "*", sElapsed := .timedOut } : HopRecord)),
          sent := List.range' 1 els.length,
          ending := .probing (1 + els.length) } ∧
    ((hopLoop (pingIPv4 pid) ip 1 (rs.map (fun r =>
          ({ event := .reply ⟨ipv4.ICMPTypeTimeExceeded, 0, 0, none⟩ r.1,
             elapsed := r.2 } : ProbeEnv)))).sent = List.range' 1 rs.length ∧
      (hopLoop (pingIPv4 pid) ip 1 (rs.map (fun r =>
          ({ event := .reply ⟨ipv4.ICMPTypeTimeExceeded, 0, 0, none⟩ r.1,
             elapsed := r.2 } : ProbeEnv)))).ending = .probing (1 + rs.length)) ∧
    (hopLoop f ip 1 envs).sent.length ≤ envs.length :=
  ⟨hopLoop_IPv6_deadlines pid ip els 1,
   hopLoop_time_exceeded (pingIPv4 pid) ip (fun ttl m src => pingIPv4_reply pid ttl ip m src)
     ipv4.ICMPTypeTimeExceeded (Or.inl rfl) rs 1,
   (hopLoop_output_le_sent f ip envs 1).2⟩

/-- C4 (claim as stated fails): over IPv4 a Destination Unreachable message
from a router that is not the target ends the trace at ttl 1 by a normal
return, the only way the code has of ending a trace as reached, although the
reply is not an Echo Reply, carries no identifier and does not come from the
target. -/
theorem C4_unreachable_reply_ends_trace :
    (hopLoop (pingIPv4 1234) [93, 184, 216, 34] 1
        [{ event := .reply ⟨ipv4.ICMPTypeDestinationUnreachable, 1, 0, some (.RawBody [])⟩
                      "10.0.0.1", elapsed := 5 },
         { event := .deadline, elapsed := 0 }]).ending = .returned ∧
    (hopLoop (pingIPv4 1234) [93, 184, 216, 34] 1
        [{ event := .reply ⟨ipv4.ICMPTypeDestinationUnreachable, 1, 0, some (.RawBody [])⟩
                      "10.0.0.1", elapsed := 5 },
         { event := .deadline, elapsed := 0 }]).sent = [1] ∧
    ¬ specDestinationReply 1234 "93.184.216.34"
        ⟨ipv4.ICMPTypeDestinationUnreachable, 1, 0, some (.RawBody [])⟩ "10.0.0.1" := by
  refine ⟨?_, ?_, ?_⟩
  · simp [hopLoop, pingIPv4_reply, ipv4.ICMPTypeDestinationUnreachable,
      ipv4.ICMPTypeTimeExceeded, ipv6.ICMPTypeTimeExceeded]
  · simp [hopLoop, pingIPv4_reply, ipv4.ICMPTypeDestinationUnreachable,
      ipv4.ICMPTypeTimeExceeded, ipv6.ICMPTypeTimeExceeded]
  · simp [specDestinationReply, ipv4.ICMPTypeDestinationUnreachable,
      ipv4.ICMPTypeEchoReply, ipv6.ICMPTypeEchoReply]

/-- C4 (amended): at every hop, for both probe functions, the hop loop ends the
trace at this hop (it returns, and no further ttl is probed) if and only if a
datagram was received and decoded and the type of the decoded message is
neither the IPv4 nor the IPv6 Time Exceeded type.  Neither the identifier nor
the source address of the reply is examined, and the code records no
difference between reached and not reached. -/
theorem C4_ends_iff_not_time_exceeded (pid : Nat) (ip : IP) (ttl : Nat) (e : ProbeEnv)
    (rest : List ProbeEnv) :
    (((hopLoop (pingIPv4 pid) ip ttl (e :: rest)).ending = .returned ∧
        (hopLoop (pingIPv4 pid) ip ttl (e :: rest)).sent = [ttl]) ↔
      ∃ m src, e.event = .reply m src ∧
        m.Typ ≠ ipv4.ICMPTypeTimeExceeded ∧ m.Typ ≠ ipv6.ICMPTypeTimeExceeded) ∧
    (((hopLoop (pingIPv6 pid) ip ttl (e :: rest)).ending = .returned ∧
        (hopLoop (pingIPv6 pid) ip ttl (e :: rest)).sent = [ttl]) ↔
      ∃ m src, e.event = .reply m src ∧
        m.Typ ≠ ipv4.ICMPTypeTimeExceeded ∧ m.Typ ≠ ipv6.ICMPTypeTimeExceeded) := by
  constructor
  · rw [hopLoop_ends_here_iff]
    cases hev : e.event with
    | listenErr => simp [pingIPv4_listenErr]
    | writeErr => simp [pingIPv4_writeErr]
    | deadline => simp [pingIPv4_deadline]
    | malformed src => simp [pingIPv4_malformed]
    | reply rm src =>
      simp only [pingIPv4_reply, PingResult.ret.injEq, Option.some.injEq, NetEvent.reply.injEq]
      constructor
      · rintro ⟨m, s, _, ⟨rfl, rfl, _⟩, h4, h6⟩
        exact ⟨rm, src, ⟨rfl, rfl⟩, h4, h6⟩
      · rintro ⟨m, s, ⟨rfl, rfl⟩, h4, h6⟩
        exact ⟨rm, src, false, ⟨rfl, rfl, rfl⟩, h4, h6⟩
  · rw [hopLoop_ends_here_iff]
    cases hev : e.event with
    | listenErr => simp [pingIPv6_listenErr]
    | writeErr => simp [pingIPv6_writeErr]
    | deadline => simp [pingIPv6_deadline]
    | malformed src => simp [pingIPv6_malformed]
    | reply rm src =>
      simp only [pingIPv6_reply, PingResult.ret.injEq, Option.some.injEq, NetEvent.reply.injEq]
      constructor
      · rintro ⟨m, s, _, ⟨rfl, rfl, _⟩, h4, h6⟩
        exact ⟨rm, src, ⟨rfl, rfl⟩, h4, h6⟩
      · rintro ⟨m, s, ⟨rfl, rfl⟩, h4, h6⟩
        exact ⟨rm, src, false, ⟨rfl, rfl, rfl⟩, h4, h6⟩

/-- C5 (failing input: IPv4, read deadline expired): when the read deadline
expires in pingIPv4, log.Fatal ends the process inside the probe, so no record
is printed for this ttl and no probe with ttl + 1 is sent; in pingIPv6 the same
event yields the record (ttl, "*", timed out) and the loop goes on with
ttl + 1, as the claim says for both. -/
theorem C5_deadline_IPv4_exits_IPv6_continues (pid : Nat) (ip : IP) (ttl e : Nat)
    (rest : List ProbeEnv) :
    hopLoop (pingIPv4 pid) ip ttl ({ event := .deadline, elapsed := e } :: rest)
      = { output := [], sent := [ttl], ending := .exited } ∧
    hopLoop (pingIPv6 pid) ip ttl ({ event := .deadline, elapsed := e } :: rest)
      = { output := { ttl := ttl, fromIP := "*", sElapsed := .timedOut }
                      :: (hopLoop (pingIPv6 pid) ip (ttl + 1) rest).output,
          sent := ttl :: (hopLoop (pingIPv6 pid) ip (ttl + 1) rest).sent,
          ending := (hopLoop (pingIPv6 pid) ip (ttl + 1) rest).ending } := by
  constructor
  · simp [hopLoop, pingIPv4_deadline]
  · simp [hopLoop, pingIPv6_deadline]

/-- C6 (failing input: a datagram that the decoder rejects): both probe
functions return a nil message together with the error, the hop loop prints
the line for this ttl and then reads the Type field of the nil message, which
is a nil pointer dereference: the run panics at this hop and the remaining
hops are never probed. -/
theorem C6_malformed_reply_panics (pid : Nat) (ip : IP) (ttl e : Nat) (src : String)
    (rest : List ProbeEnv) :
    (pingIPv4 pid ttl ip (.malformed src) = .ret none src true ∧
      (hopLoop (pingIPv4 pid) ip ttl ({ event := .malformed src, elapsed := e } :: rest)).ending
        = .panicked ∧
      (hopLoop (pingIPv4 pid) ip ttl ({ event := .malformed src, elapsed := e } :: rest)).sent
        = [ttl]) ∧
    (pingIPv6 pid ttl ip (.malformed src) = .ret none src true ∧
      (hopLoop (pingIPv6 pid) ip ttl ({ event := .malformed src, elapsed := e } :: rest)).ending
        = .panicked ∧
      (hopLoop (pingIPv6 pid) ip ttl ({ event := .malformed src, elapsed := e } :: rest)).sent
        = [ttl]) := by
  refine ⟨⟨pingIPv4_malformed pid ttl ip src, ?_, ?_⟩, ⟨pingIPv6_malformed pid ttl ip src, ?_, ?_⟩⟩
  · simp [hopLoop, pingIPv4_malformed]
  · simp [hopLoop, pingIPv4_malformed]
  · simp [hopLoop, pingIPv6_malformed]
  · simp [hopLoop, pingIPv6_malformed]

/-- C7 (claim as stated fails): the run sends identifier 1234; an Echo Reply
carrying identifier 4321 arrives at ttl 1.  The hop is printed with the address
of the responder and the measured time, not as unresponsive, and the loop
returns there: ttl 2 is never probed although a further outcome is at hand. -/
theorem C7_foreign_identifier_ends_trace :
    echoIdent 1234 = 1234 ∧
    hopLoop (pingIPv4 1234) [93, 184, 216, 34] 1
        [{ event := .reply ⟨ipv4.ICMPTypeEchoReply, 0, 0, some (.Echo 4321 1 helloData)⟩
                      "93.184.216.34", elapsed := 5 },
         { event := .reply ⟨ipv4.ICMPTypeEchoReply, 0, 0, some (.Echo 1234 1 helloData)⟩
                      "93.184.216.34", elapsed := 6 }]
      = { output := [{ ttl := 1, fromIP := "93.184.216.34", sElapsed := .duration 5 }],
          sent := [1], ending := .returned } := by
  constructor
  · decide
  · simp [hopLoop, pingIPv4_reply, ipv4.ICMPTypeEchoReply,
      ipv4.ICMPTypeTimeExceeded, ipv6.ICMPTypeTimeExceeded]

/-- C7 (amended): for every ttl and both probe functions, an Echo Reply is
never rejected on account of its identifier.  Whatever identifier it carries,
in particular one that differs from the identifier of the run, the hop is
printed with the address of the responder and the measured time, and the loop
returns at this ttl without probing ttl + 1. -/
theorem C7_echo_reply_any_identifier (pid : Nat) (ip : IP) (ttl : Nat)
    (id seq code ck e : Nat) (data : List Nat) (src : String) (rest : List ProbeEnv)
    (hid : id ≠ echoIdent pid) (hsrc : src ≠ "*") :
    hopLoop (pingIPv4 pid) ip ttl
        ({ event := .reply ⟨ipv4.ICMPTypeEchoReply, code, ck, some (.Echo id seq data)⟩ src,
           elapsed := e } :: rest)
      = { output := [{ ttl := ttl, fromIP := src, sElapsed := .duration e }],
          sent := [ttl], ending := .returned } ∧
    hopLoop (pingIPv6 pid) ip ttl
        ({ event := .reply ⟨ipv6.ICMPTypeEchoReply, code, ck, some (.Echo id seq data)⟩ src,
           elapsed := e } :: rest)
      = { output := [{ ttl := ttl, fromIP := src, sElapsed := .duration e }],
          sent := [ttl], ending := .returned } := by
  have _ := hid
  constructor
  · simp [hopLoop, pingIPv4_reply, ipv4.ICMPTypeEchoReply,
      ipv4.ICMPTypeTimeExceeded, ipv6.ICMPTypeTimeExceeded, hsrc]
  · simp [hopLoop, pingIPv6_reply, ipv6.ICMPTypeEchoReply,
      ipv4.ICMPTypeTimeExceeded, ipv6.ICMPTypeTimeExceeded, hsrc]

/-- Witness of C7 (amended): identifier 4321 against a run with identifier
1234, at ttl 3. -/
theorem C7_echo_reply_any_identifier_witness :
    (4321 ≠ echoIdent 1234 ∧ "93.184.216.34" ≠ "*") ∧
    hopLoop (pingIPv4 1234) [93, 184, 216, 34] 3
        ({ event := .reply ⟨ipv4.ICMPTypeEchoReply, 0, 0, some (.Echo 4321 1 helloData)⟩
                      "93.184.216.34", elapsed := 5 } :: [])
      = { output := [{ ttl := 3, fromIP := "93.184.216.34", sElapsed := .duration 5 }],
          sent := [3], ending := .returned } :=
  ⟨⟨by decide, by decide⟩,
   (C7_echo_reply_any_identifier 1234 [93, 184, 216, 34] 3 4321 1 0 0 5 helloData
      "93.184.216.34" [] (by decide) (by decide)).1⟩

/-- C8 (failing input: IPv6 forced, the lookup answers the single IPv4 address
93.184.216.34): the IPv6 branch tests candidates with To16, which accepts an
IPv4 address, so the target counts as resolved, no "Unable to resolve" line is
printed and the first probe is sent with ttl 1 through pingIPv6.  The IPv4
branch tests with To4 and does what the claim says: for every candidate list,
once reduced to the candidates that are not IPv4 addresses, it prints "Unable
to resolve" and sends no probe. -/
theorem C8_IPv6_forced_accepts_IPv4_candidate (pid : Nat) (ipString : IP → String)
    (target : String) (e : ProbeEnv) (rest : List ProbeEnv) (ips : List IP)
    (envs : List ProbeEnv) :
    IP.To4 [93, 184, 216, 34] = some [93, 184, 216, 34] ∧
    (traceroute false true pid ipString target [[93, 184, 216, 34]] (e :: rest)).sent.head?
      = some 1 ∧
    OutLine.unableToResolve target ∉
      (traceroute false true pid ipString target [[93, 184, 216, 34]] (e :: rest)).stdout ∧
    traceroute true false pid ipString target (ips.filter (fun a => a.To4.isNone)) envs
      = { stdout := [.unableToResolve target], sent := [], ending := .exited } := by
  have hsel : selectTarget false true pid [[93, 184, 216, 34]]
      = some (pingIPv6 pid, [0, 0, 0, 0, 0, 0, 0, 0, 0, 0, 0xff, 0xff, 93, 184, 216, 34]) := by
    simp [selectTarget, IP.To16]
  refine ⟨by simp [IP.To4], ?_, ?_, ?_⟩
  · rw [(traceroute_resolved false true pid ipString target _ (e :: rest) _ _ hsel).2.1]
    exact hopLoop_sent_head _ _ 1 e rest
  · unfold traceroute
    rw [hsel]
    simp only [List.mem_append, List.mem_map, not_or]
    constructor
    · split <;> simp
    · simp
  · apply traceroute_unresolved
    simp [selectTarget, findSome_To4_filter]

/-- C9 (claim as stated fails): the requests built for ttl 1 and for ttl 2 in
the same run both carry sequence number 1, so the first is not strictly
smaller than the second. -/
theorem C9_seq_not_increasing :
    (wmIPv4 1234 1 [93, 184, 216, 34]).echoSeq = some 1 ∧
    (wmIPv4 1234 2 [93, 184, 216, 34]).echoSeq = some 1 ∧
    ¬ ((wmIPv4 1234 1 [93, 184, 216, 34]).echoSeq.getD 0
        < (wmIPv4 1234 2 [93, 184, 216, 34]).echoSeq.getD 0) := by
  refine ⟨rfl, rfl, ?_⟩
  simp [wmIPv4, Message.echoSeq]

/-- C9 (amended): the sequence number is not incremented.  For every process
id, every ttl and every target address the Echo Request built by pingIPv4 and
the one built by pingIPv6 carry the constant sequence number 1, so any two
probes of a run carry equal sequence numbers. -/
theorem C9_seq_constant_one (pid : Nat) (k k' : Nat) (ip : IP) :
    (wmIPv4 pid k ip).echoSeq = some 1 ∧ (wmIPv6 pid k ip).echoSeq = some 1 ∧
    (wmIPv4 pid k ip).echoSeq = (wmIPv4 pid k' ip).echoSeq ∧
    (wmIPv6 pid k ip).echoSeq = (wmIPv6 pid k' ip).echoSeq :=
  ⟨rfl, rfl, rfl, rfl⟩

/-- C10: for every process id (and every ttl and target), the identifier
`pid AND 0xffff` lies in 0..65535, and for both families the Echo Request that
the probe function builds is encoded to bytes which, decoded with the protocol
number of the same family, give an echo message of the request type carrying
the original identifier and the original sequence number (and payload). -/
theorem C10_echo_request_roundtrip (pid ttl : Nat) (ip : IP) :
    echoIdent pid < 65536 ∧
    (∃ wb m, Marshal (wmIPv4 pid ttl ip) = some wb ∧
      ParseMessage ipv4.ICMPTypeEcho.Protocol wb = some m ∧
      m.Typ = ipv4.ICMPTypeEcho ∧
      m.echoID = (wmIPv4 pid ttl ip).echoID ∧ m.echoID = some (echoIdent pid) ∧
      m.echoSeq = (wmIPv4 pid ttl ip).echoSeq ∧ m.echoSeq = some 1 ∧
      m.Body = (wmIPv4 pid ttl ip).Body) ∧
    (∃ wb m, Marshal (wmIPv6 pid ttl ip) = some wb ∧
      ParseMessage ipv6.ICMPTypeEchoRequest.Protocol wb = some m ∧
      m.Typ = ipv6.ICMPTypeEchoRequest ∧
      m.echoID = (wmIPv6 pid ttl ip).echoID ∧ m.echoID = some (echoIdent pid) ∧
      m.echoSeq = (wmIPv6 pid ttl ip).echoSeq ∧ m.echoSeq = some 1 ∧
      m.Body = (wmIPv6 pid ttl ip).Body) := by
  have hid := uint16_bytes (echoIdent pid) (echoIdent_lt pid)
  refine ⟨echoIdent_lt pid, ?_, ?_⟩
  · refine ⟨_, _, Marshal_IPv4_Echo (echoIdent pid) 1 helloData,
      ParseMessage_IPv4_Echo _ _ _ _ _ _ _ _, rfl, ?_⟩
    simp [Message.echoID, Message.echoSeq, wmIPv4, hid]
  · refine ⟨_, _, Marshal_IPv6_Echo (echoIdent pid) 1 helloData,
      ParseMessage_IPv6_Echo _ _ _ _ _ _ _ _, rfl, ?_⟩
    simp [Message.echoID, Message.echoSeq, wmIPv6, hid]

end Tracert
